import Mathlib

/-!
# Verification of the Aadhaar fraud-detection pipeline core

Shallow embedding of the checksum validators, the OCR candidate selection,
and the verification / fraud-scoring engine of the repository, together with
theorems settling the specification claims.

Strings are modelled as `List Char`; Python `None` as `Option.none`; Python
floats (OCR confidences, fraud scores) as `ℚ`; Python exceptions as
`Except (List Char)`. The clock reading taken by `datetime.now()` is passed
as an explicit `Nat` input.
-/

namespace Backend

/-- The multiplication table `d` of `backend/documents/verhoeff.py`. -/
def d : List (List Nat) :=
  [ [0, 1, 2, 3, 4, 5, 6, 7, 8, 9],
    [1, 2, 3, 4, 0, 6, 7, 8, 9, 5],
    [2, 3, 4, 0, 1, 7, 8, 9, 5, 6],
    [3, 4, 0, 1, 2, 8, 9, 5, 6, 7],
    [4, 0, 1, 2, 3, 9, 5, 6, 7, 8],
    [5, 9, 8, 7, 6, 0, 4, 3, 2, 1],
    [6, 5, 9, 8, 7, 1, 0, 4, 3, 2],
    [7, 6, 5, 9, 8, 2, 1, 0, 4, 3],
    [8, 7, 6, 5, 9, 3, 2, 1, 0, 4],
    [9, 8, 7, 6, 5, 4, 3, 2, 1, 0] ]

/-- The permutation table `p` of `backend/documents/verhoeff.py`. -/
def p : List (List Nat) :=
  [ [0, 1, 2, 3, 4, 5, 6, 7, 8, 9],
    [1, 5, 7, 6, 2, 8, 3, 0, 9, 4],
    [5, 8, 0, 3, 7, 9, 6, 1, 4, 2],
    [8, 9, 1, 6, 0, 4, 3, 5, 2, 7],
    [9, 4, 5, 3, 1, 2, 6, 8, 7, 0],
    [4, 2, 8, 6, 5, 7, 3, 9, 0, 1],
    [2, 7, 9, 3, 8, 0, 6, 4, 1, 5],
    [7, 0, 4, 6, 9, 1, 3, 2, 5, 8] ]

/-- Two-dimensional table lookup, `t[i][j]`. -/
def tbl (t : List (List Nat)) (i j : Nat) : Nat := (t.getD i []).getD j 0

/-- `int(item)` on a single digit character. -/
def digitVal (c : Char) : Nat := c.toNat - 48

/-- `number.replace(" ", "").replace("-", "")`: removing every space and
hyphen of the string. -/
def sanitize (s : List Char) : List Char :=
  s.filter (fun c => !(c == ' ' || c == '-'))

/-- Python `str.isdigit`: true iff the string is nonempty and all characters
are digits (restricted here to ASCII digits). -/
def isDigitsB (s : List Char) : Bool := !s.isEmpty && s.all Char.isDigit

/-- The accumulator loop of `VerhoeffValidator.validate`:
`c = d[c][p[i % 8][digit]]` over a list of digits, position `i` counting up
from `0`. The list is expected in least-significant-first order (the caller
reverses the cleaned string). -/
def checksumFrom (c : Nat) (i : Nat) : List Nat → Nat
  | [] => c
  | x :: rest => checksumFrom (tbl d c (tbl p (i % 8) x)) (i + 1) rest

/-- Final accumulator starting from `c = 0`, `i = 0`. -/
def verhoeffChecksum (digits : List Nat) : Nat := checksumFrom 0 0 digits

/-- Core of `VerhoeffValidator.validate` after sanitization: digit check,
length-12 check, then the accumulator test `c == 0`. -/
def validateClean (clean : List Char) : Bool :=
  if isDigitsB clean then
    if clean.length = 12 then verhoeffChecksum ((clean.reverse).map digitVal) == 0
    else false
  else false

/-- `VerhoeffValidator.validate` of `backend/documents/verhoeff.py`.
`none` models Python `None` (rejected by the `not number or not
isinstance(number, str)` guard, as is the empty string). -/
def validate : Option (List Char) → Bool
  | none => false
  | some s => if s.isEmpty then false else validateClean (sanitize s)

end Backend

namespace Pipeline

/-- The inverse table of `src/verhoeff_validator.py` (note: it differs from
the backend's inverse table). -/
def pInv : List Nat := [0, 4, 3, 2, 6, 5, 7, 8, 9, 1]

/-- The `perm` table of `src/verhoeff_validator.py` (its rows are those of
the classic multiplication table, not of the Verhoeff permutation table). -/
def perm : List (List Nat) :=
  [ [0, 1, 2, 3, 4, 5, 6, 7, 8, 9],
    [1, 2, 3, 4, 0, 6, 7, 8, 9, 5],
    [2, 3, 4, 0, 1, 7, 8, 9, 5, 6],
    [3, 4, 0, 1, 2, 8, 9, 5, 6, 7],
    [4, 0, 1, 2, 3, 9, 5, 6, 7, 8],
    [5, 9, 8, 7, 6, 0, 4, 3, 2, 1],
    [6, 5, 9, 8, 7, 1, 0, 4, 3, 2],
    [7, 6, 5, 9, 8, 2, 1, 0, 4, 3],
    [8, 7, 6, 5, 9, 3, 2, 1, 0, 4],
    [9, 8, 7, 6, 5, 4, 3, 2, 1, 0] ]

/-- The `diag` table of `src/verhoeff_validator.py`. -/
def diag : List (List Nat) :=
  [ [0, 1, 2, 3, 4, 5, 6, 7, 8, 9],
    [1, 2, 3, 4, 0, 6, 7, 8, 9, 5],
    [2, 3, 4, 0, 1, 7, 8, 9, 5, 6],
    [3, 4, 0, 1, 2, 8, 9, 5, 6, 7],
    [4, 0, 1, 2, 3, 9, 5, 6, 7, 8],
    [5, 9, 8, 7, 6, 0, 4, 3, 2, 1],
    [6, 5, 9, 8, 7, 1, 0, 4, 3, 2],
    [7, 6, 5, 9, 8, 2, 1, 0, 4, 3],
    [8, 7, 6, 5, 9, 3, 2, 1, 0, 4],
    [9, 8, 7, 6, 5, 4, 3, 2, 1, 0] ]

/-- Python `str.strip()`: leading and trailing whitespace removed. -/
def pyStrip (s : List Char) : List Char :=
  (((s.dropWhile Char.isWhitespace).reverse.dropWhile Char.isWhitespace)).reverse

/-- The regex `^\d+$`: nonempty and all (ASCII) digits. -/
def allDigits1 (s : List Char) : Bool := !s.isEmpty && s.all Char.isDigit

/-- The regex `^\d{12}$`: exactly 12 (ASCII) digits. -/
def good12 (s : List Char) : Bool := (s.length == 12) && s.all Char.isDigit

/-- The accumulator loop of `calculate_checksum`:
`c = diag[c][perm[i % 8][digit]]`, digits least-significant first. -/
def checksumFrom (c : Nat) (i : Nat) : List Nat → Nat
  | [] => c
  | x :: rest => checksumFrom (Backend.tbl diag c (Backend.tbl perm (i % 8) x)) (i + 1) rest

/-- `VerhoeffValidator.calculate_checksum` of `src/verhoeff_validator.py`:
strip, reject non-digit input with a `ValueError` (modelled as
`Except.error`), then run the loop over the reversed digits and return
`inv[c]`. -/
def calculate_checksum (numberStr : List Char) : Except (List Char) Nat :=
  let n := pyStrip numberStr
  if allDigits1 n then
    .ok (pInv.getD (checksumFrom 0 0 ((n.reverse).map Backend.digitVal)) 0)
  else
    .error ("Invalid input. Must contain only digits.".toList)

/-- `VerhoeffValidator.validate_checksum` of `src/verhoeff_validator.py`:
strip, digit and length checks returning `false`, then compare the computed
check digit of the initial segment with the last digit. -/
def validate_checksum (numberWithChecksum : List Char) : Except (List Char) Bool :=
  let n := pyStrip numberWithChecksum
  if allDigits1 n = false then .ok false
  else if n.length < 2 then .ok false
  else do
    let numberStr := n.dropLast
    let checkDigit := Backend.digitVal (n.getLastD '0')
    let calculated ← calculate_checksum numberStr
    .ok (calculated == checkDigit)

/-- The dictionary returned by `validate_aadhaar_uid`. -/
structure AadhaarResult where
  is_valid : Bool
  uid : List Char
  error : Option (List Char)
deriving DecidableEq, Repr

/-- `VerhoeffValidator.validate_aadhaar_uid` of `src/verhoeff_validator.py`,
with exceptions propagated in `Except`. -/
def validate_aadhaar_uid (uidNumber : List Char) : Except (List Char) AadhaarResult :=
  let uidStr := pyStrip uidNumber
  if good12 uidStr = false then
    .ok ⟨false, uidStr, some ("Aadhaar UID must be exactly 12 digits".toList)⟩
  else do
    let isValid ← validate_checksum uidStr
    .ok ⟨isValid, uidStr,
      if isValid then none else some ("Verhoeff checksum validation failed".toList)⟩

/-- The `is_valid` verdict of `validate_aadhaar_uid` (the error branch is
proved unreachable below). -/
def pipeIsValid (uidNumber : List Char) : Bool :=
  match validate_aadhaar_uid uidNumber with
  | .ok r => r.is_valid
  | .error _ => false

end Pipeline

namespace Backend

/-- The `1234 1234 1234` printed grouping of a 12-digit identifier: internal
spaces inserted after the 4th and 8th characters. -/
def spaced4 (ds : List Char) : List Char :=
  ds.take 4 ++ [' '] ++ ((ds.drop 4).take 4) ++ [' '] ++ ds.drop 8

/-- The `1234-1234-1234` grouping: internal hyphens inserted after the 4th
and 8th characters. -/
def hyphened4 (ds : List Char) : List Char :=
  ds.take 4 ++ ['-'] ++ ((ds.drop 4).take 4) ++ ['-'] ++ ds.drop 8

theorem validate_eq_of_sanitize_eq (s₁ s₂ : List Char)
    (h : sanitize s₁ = sanitize s₂) :
    validate (some s₁) = validate (some s₂) := by
  cases s₁ with
  | nil =>
    cases s₂ with
    | nil => rfl
    | cons b t =>
      have h2 : sanitize (b :: t) = [] := h.symm
      simp [validate, validateClean, isDigitsB, h2]
  | cons a t₁ =>
    cases s₂ with
    | nil =>
      have h1 : sanitize (a :: t₁) = [] := h
      simp [validate, validateClean, isDigitsB, h1]
    | cons b t₂ =>
      simp only [validate, List.isEmpty_cons, h]

theorem sanitize_spaced (ds : List Char) : sanitize (spaced4 ds) = sanitize ds := by
  conv_rhs => rw [← List.take_append_drop 4 ds, ← List.take_append_drop 4 (ds.drop 4)]
  simp [spaced4, sanitize, List.filter_append, List.drop_drop]

theorem sanitize_hyphened (ds : List Char) : sanitize (hyphened4 ds) = sanitize ds := by
  conv_rhs => rw [← List.take_append_drop 4 ds, ← List.take_append_drop 4 (ds.drop 4)]
  simp [hyphened4, sanitize, List.filter_append, List.drop_drop]

end Backend

/-- A digit character is not a whitespace character. -/
theorem digit_not_ws (c : Char) (h : c.isDigit = true) : c.isWhitespace = false := by
  unfold Char.isWhitespace
  have hs : c ≠ ' ' := fun e => by subst e; exact absurd h (by decide)
  have ht : c ≠ '\t' := fun e => by subst e; exact absurd h (by decide)
  have hr : c ≠ '\r' := fun e => by subst e; exact absurd h (by decide)
  have hn : c ≠ '\n' := fun e => by subst e; exact absurd h (by decide)
  simp [hs, ht, hr, hn]

theorem dropWhile_eq_self_of_false (l : List Char) (q : Char → Bool)
    (h : ∀ c ∈ l, q c = false) : l.dropWhile q = l := by
  cases l with
  | nil => rfl
  | cons a t => simp [List.dropWhile_cons, h a (List.mem_cons_self a t)]

/-- `str.strip()` leaves an all-digit string unchanged. -/
theorem pyStrip_digits (l : List Char) (h : ∀ c ∈ l, c.isDigit = true) :
    Pipeline.pyStrip l = l := by
  unfold Pipeline.pyStrip
  rw [dropWhile_eq_self_of_false _ _ (fun c hc => digit_not_ws c (h c hc)),
      dropWhile_eq_self_of_false _ _
        (fun c hc => digit_not_ws c (h c (List.mem_reverse.mp hc))),
      List.reverse_reverse]

namespace Pipeline

/-- The value `calculate_checksum` returns on all-digit input (where its
`ValueError` branch is unreachable). -/
def calcCheckDigit (n : List Char) : Nat :=
  pInv.getD (checksumFrom 0 0 ((n.reverse).map Backend.digitVal)) 0

/-- The value `validate_checksum` returns on a 12-digit string: computed
check digit of the initial 11 digits compared with the final digit. -/
def checksumOk12 (u : List Char) : Bool :=
  calcCheckDigit u.dropLast == Backend.digitVal (u.getLastD '0')

/-- Pure form of `validate_aadhaar_uid`; it agrees with the `Except`
version on every input (`validate_aadhaar_uid_eq_ok`), because the regex
gate makes the exception path unreachable. -/
def validateAadhaarUid (uidNumber : List Char) : AadhaarResult :=
  let uidStr := pyStrip uidNumber
  if good12 uidStr = false then
    ⟨false, uidStr, some ("Aadhaar UID must be exactly 12 digits".toList)⟩
  else
    let isValid := checksumOk12 uidStr
    ⟨isValid, uidStr,
      if isValid then none else some ("Verhoeff checksum validation failed".toList)⟩

end Pipeline

theorem validate_checksum_digits12 (u : List Char) (hlen : u.length = 12)
    (hdig : ∀ c ∈ u, c.isDigit = true) :
    Pipeline.validate_checksum u = .ok (Pipeline.checksumOk12 u) := by
  have hstrip : Pipeline.pyStrip u = u := pyStrip_digits u hdig
  have hne : u.isEmpty = false := by
    cases u with
    | nil => simp at hlen
    | cons a t => rfl
  have hall : u.all Char.isDigit = true := List.all_eq_true.mpr hdig
  have hAD : Pipeline.allDigits1 u = true := by
    simp [Pipeline.allDigits1, hne, hall]
  have hdigDL : ∀ c ∈ u.dropLast, c.isDigit = true :=
    fun c hc => hdig c (List.dropLast_subset u hc)
  have hstrip2 : Pipeline.pyStrip u.dropLast = u.dropLast := pyStrip_digits _ hdigDL
  have hlenDL : u.dropLast.length = 11 := by
    rw [List.length_dropLast, hlen]
  have hneDL : u.dropLast.isEmpty = false := by
    cases h : u.dropLast with
    | nil => rw [h] at hlenDL; simp at hlenDL
    | cons a t => rfl
  have hallDL : u.dropLast.all Char.isDigit = true := List.all_eq_true.mpr hdigDL
  have hADDL : Pipeline.allDigits1 u.dropLast = true := by
    simp [Pipeline.allDigits1, hneDL, hallDL]
  unfold Pipeline.validate_checksum Pipeline.calculate_checksum
  simp [hstrip, hstrip2, hAD, hADDL, hlen, Pipeline.checksumOk12, Pipeline.calcCheckDigit]
  rfl

theorem validate_aadhaar_uid_eq_ok (s : List Char) :
    Pipeline.validate_aadhaar_uid s = .ok (Pipeline.validateAadhaarUid s) := by
  unfold Pipeline.validate_aadhaar_uid Pipeline.validateAadhaarUid
  by_cases hg : Pipeline.good12 (Pipeline.pyStrip s) = false
  · simp [hg]
  · have hg' : Pipeline.good12 (Pipeline.pyStrip s) = true := by
      revert hg; cases Pipeline.good12 (Pipeline.pyStrip s) <;> simp
    have hparts := hg'
    simp only [Pipeline.good12, Bool.and_eq_true, beq_iff_eq, List.all_eq_true] at hparts
    have hvc := validate_checksum_digits12 (Pipeline.pyStrip s) hparts.1
      (fun c hc => hparts.2 c hc)
    simp [hg', hvc]
    rfl

theorem pipeIsValid_eq (s : List Char) :
    Pipeline.pipeIsValid s = (Pipeline.validateAadhaarUid s).is_valid := by
  unfold Pipeline.pipeIsValid
  rw [validate_aadhaar_uid_eq_ok]

/-- C1: for every input string whose form after removing spaces and hyphens
is exactly 12 ASCII digits, `VerhoeffValidator.validate` returns `true` iff
the accumulator `c := 0; c := d[c][p[i mod 8][digit_i]]` over the digits
taken least-significant first ends with `c = 0`; and
`validate("000000000000")` returns `false`. -/
theorem claim1_backend_checksum_algorithm :
    (∀ s : List Char, (Backend.sanitize s).length = 12 →
        (∀ c ∈ Backend.sanitize s, c.isDigit) →
        (Backend.validate (some s) = true ↔
          Backend.verhoeffChecksum
            (((Backend.sanitize s).reverse).map Backend.digitVal) = 0)) ∧
    Backend.validate (some ("000000000000".toList)) = false := by
  constructor
  · intro s hlen hdig
    have hempty : s.isEmpty = false := by
      cases s with
      | nil => simp [Backend.sanitize] at hlen
      | cons a t => rfl
    have hdigB : (Backend.sanitize s).all Char.isDigit = true :=
      List.all_eq_true.mpr hdig
    have hneC : (Backend.sanitize s).isEmpty = false := by
      cases hsz : Backend.sanitize s with
      | nil => rw [hsz] at hlen; simp at hlen
      | cons a t => rfl
    simp [Backend.validate, hempty, Backend.validateClean, Backend.isDigitsB,
      hneC, hdigB, hlen]
  · decide

/-- Witness for C1: the hypotheses hold at the concrete input
`"000000000000"`. -/
theorem claim1_backend_checksum_algorithm_witness :
    Backend.validate (some ("000000000000".toList)) = true ↔
      Backend.verhoeffChecksum
        (((Backend.sanitize ("000000000000".toList)).reverse).map Backend.digitVal) = 0 :=
  claim1_backend_checksum_algorithm.1 ("000000000000".toList) (by decide) (by decide)

/-- C7: malformed inputs to the Checksum Validator — `None`, the empty
string, `"12345678901a"`, and in general any string whose sanitized form is
not exactly 12 digits — yield `isValid = false` and raise no exception:
the backend `validate` returns `false`, and the pipeline
`validate_aadhaar_uid` always returns `.ok` (never `.error`) with
`is_valid = false` whenever its stripped input is not exactly 12 digits. -/
theorem claim7_malformed_inputs_never_raise :
    Backend.validate none = false ∧
    Backend.validate (some []) = false ∧
    Backend.validate (some ("12345678901a".toList)) = false ∧
    (∀ s : List Char,
      ¬((Backend.sanitize s).length = 12 ∧ ∀ c ∈ Backend.sanitize s, c.isDigit) →
      Backend.validate (some s) = false) ∧
    (∀ s : List Char, ∃ r : Pipeline.AadhaarResult,
      Pipeline.validate_aadhaar_uid s = .ok r ∧
      (Pipeline.good12 (Pipeline.pyStrip s) = false → r.is_valid = false)) := by
  refine ⟨rfl, rfl, by decide, ?_, ?_⟩
  · intro s hbad
    cases s with
    | nil => rfl
    | cons a t =>
      show Backend.validateClean (Backend.sanitize (a :: t)) = false
      unfold Backend.validateClean
      by_cases hd : Backend.isDigitsB (Backend.sanitize (a :: t)) = true
      · have hdig : ∀ c ∈ Backend.sanitize (a :: t), c.isDigit := by
          have := hd
          simp only [Backend.isDigitsB, Bool.and_eq_true, List.all_eq_true] at this
          exact fun c hc => this.2 c hc
        have hlen : (Backend.sanitize (a :: t)).length ≠ 12 := by
          intro h12
          exact hbad ⟨h12, hdig⟩
        simp [hd, hlen]
      · simp [hd]
  · intro s
    refine ⟨Pipeline.validateAadhaarUid s, validate_aadhaar_uid_eq_ok s, ?_⟩
    intro hbad
    unfold Pipeline.validateAadhaarUid
    simp [hbad]

/-- Witness for C7: the universally quantified parts applied at the concrete
inputs `"12 34"` (backend) and `"12345678901a"` (pipeline). -/
theorem claim7_malformed_inputs_never_raise_witness :
    Backend.validate (some ("12 34".toList)) = false ∧
    ∃ r : Pipeline.AadhaarResult,
      Pipeline.validate_aadhaar_uid ("12345678901a".toList) = .ok r ∧
      (Pipeline.good12 (Pipeline.pyStrip ("12345678901a".toList)) = false →
        r.is_valid = false) :=
  ⟨claim7_malformed_inputs_never_raise.2.2.2.1 ("12 34".toList) (by decide),
   claim7_malformed_inputs_never_raise.2.2.2.2 ("12345678901a".toList)⟩

/-- C8: sanitization does not change the verdict — for a 12-digit string,
`validate` on the space-grouped form, on the hyphen-grouped form, and on the
plain form agree. -/
theorem claim8_sanitization_invariance :
    ∀ ds : List Char, ds.length = 12 → (∀ c ∈ ds, c.isDigit) →
      Backend.validate (some (Backend.spaced4 ds)) = Backend.validate (some ds) ∧
      Backend.validate (some (Backend.hyphened4 ds)) = Backend.validate (some ds) :=
  fun ds _ _ =>
    ⟨Backend.validate_eq_of_sanitize_eq _ _ (Backend.sanitize_spaced ds),
     Backend.validate_eq_of_sanitize_eq _ _ (Backend.sanitize_hyphened ds)⟩

/-- Witness for C8: the grouping invariance at the concrete digits
`"234123412341"`. -/
theorem claim8_sanitization_invariance_witness :
    Backend.validate (some (Backend.spaced4 ("234123412341".toList))) =
      Backend.validate (some ("234123412341".toList)) ∧
    Backend.validate (some (Backend.hyphened4 ("234123412341".toList))) =
      Backend.validate (some ("234123412341".toList)) :=
  claim8_sanitization_invariance ("234123412341".toList) (by decide) (by decide)

/-- C10 counterexample: the two checksum implementations disagree at the
12-digit string `"000000000009"` — the backend's `validate` rejects it while
the pipeline's `validate_aadhaar_uid` reports `is_valid = true`, so the
claimed equivalence fails. -/
theorem claim10_counterexample :
    ¬(Backend.validate (some ("000000000009".toList)) = true ↔
      Pipeline.pipeIsValid ("000000000009".toList) = true) := by
  decide

/-- C10 amended: the two checksum implementations are not equivalent — there
is a string of exactly 12 ASCII digits on which backend `validate` and the
pipeline's `is_valid` verdict differ (they use different permutation and
inverse tables, and different acceptance tests). -/
theorem claim10_implementations_disagree :
    ∃ s : List Char, s.length = 12 ∧ (∀ c ∈ s, c.isDigit) ∧
      Backend.validate (some s) ≠ Pipeline.pipeIsValid s :=
  ⟨"000000000009".toList, by decide, by decide, by decide⟩

namespace Verify

/-- The fraud flags appended by `verify_document`. -/
inductive Flag
  | OCR_EXTRACTION_FAILED
  | INVALID_CHECKSUM
  | DUPLICATE_UID
  | UID_NOT_FOUND
  | AZURE_DI_FAILED
  | AZURE_DI_VALIDATION_FAILED
deriving DecidableEq, Repr

/-- The recommendation tiers. -/
inductive Recommendation
  | ACCEPT
  | REVIEW
  | REJECT
deriving DecidableEq, Repr

/-- The OCR-result dictionary consumed by `verify_document`
(`success`, `extracted_data.uid_number`, `confidence`, `error`). The
`confidence` field is the percent value the extractor always includes
(0.0 on the failure path). -/
structure OcrExtraction where
  success : Bool
  uidNumber : Option (List Char)
  confidence : ℚ
  error : Option (List Char)
deriving DecidableEq, Repr

/-- The optional Azure collaborators as external inputs: whether each client
is configured, and the results their calls would return. -/
structure AzureEnv where
  hasDi : Bool
  hasOpenai : Bool
  diSuccess : Bool
  diValid : Bool
  openaiSuccess : Bool
deriving DecidableEq, Repr

/-- One entry of `self.fraud_alerts`. -/
structure FraudAlert where
  image : List Char
  uid : Option (List Char)
  flags : List Flag
  score : ℚ
deriving DecidableEq, Repr

/-- The shared mutable pipeline state: `self.processed_uids` (a set, modelled
as a duplicate-free-by-construction list) and `self.fraud_alerts`. -/
structure PipelineState where
  processedUids : List (List Char)
  fraudAlerts : List FraudAlert
deriving DecidableEq, Repr

/-- The `verification_result` dictionary built by `verify_document`. -/
structure VerificationRecord where
  imagePath : List Char
  timestamp : Nat
  ocrExtraction : Option OcrExtraction
  uidValidation : Option Pipeline.AadhaarResult
  azureDiValidation : Option (Bool × Bool)
  azureOpenaiVerification : Option Bool
  isFraudulent : Bool
  fraudFlags : List Flag
  overallScore : ℚ
  recommendation : Recommendation
deriving DecidableEq, Repr

/-- Membership test in the processed-uid registry (`uid_number in
self.processed_uids`). -/
def uidMem (u : List Char) : List (List Char) → Bool
  | [] => false
  | v :: rest => if v = u then true else uidMem u rest

/-- Python truthiness of the optional uid string (`if uid_number:`): false
for `None` and for the empty string. -/
def truthy : Option (List Char) → Bool
  | none => false
  | some u => !u.isEmpty

/-- The uid block of `verify_document`: returns the `uid_validation` field,
the flags it appends, the `is_fraudulent` value it produces, and the updated
registry. The duplicate lookup and the insertion happen for every truthy
extracted uid, whether or not the checksum validation succeeded. -/
def uidStage (uidNumber : Option (List Char)) (uids : List (List Char)) :
    Option Pipeline.AadhaarResult × List Flag × Bool × List (List Char) :=
  match uidNumber with
  | some u =>
    if u.isEmpty then (none, [Flag.UID_NOT_FOUND], true, uids)
    else
      let v := Pipeline.validateAadhaarUid u
      let fl := if v.is_valid then [] else [Flag.INVALID_CHECKSUM]
      if uidMem u uids then (some v, fl ++ [Flag.DUPLICATE_UID], true, uids)
      else (some v, fl, !v.is_valid, uids ++ [u])
  | none => (none, [Flag.UID_NOT_FOUND], true, uids)

/-- The flags appended by the Azure Document Intelligence block. -/
def azureFlags (useAzure : Bool) (az : AzureEnv) : List Flag :=
  if useAzure && az.hasDi then
    if az.diSuccess = false then [Flag.AZURE_DI_FAILED]
    else if az.diValid = false then [Flag.AZURE_DI_VALIDATION_FAILED]
    else []
  else []

/-- Whether the Azure block sets `is_fraudulent` (only on the
validation-failed path). -/
def azureFraud (useAzure : Bool) (az : AzureEnv) : Bool :=
  useAzure && az.hasDi && az.diSuccess && !az.diValid

/-- The `azure_di_validation` field recorded on the record. -/
def azureRecorded (useAzure : Bool) (az : AzureEnv) : Option (Bool × Bool) :=
  if useAzure && az.hasDi then some (az.diSuccess, az.diValid) else none

/-- `AadhaarVerificationPipeline._calculate_fraud_score`: flag points plus
the low-confidence penalty, capped above at 100. -/
def calculateFraudScore (flags : List Flag) (ocrConfidence : ℚ) : ℚ :=
  let score : ℚ :=
    (if Flag.INVALID_CHECKSUM ∈ flags then 40 else 0)
    + (if Flag.DUPLICATE_UID ∈ flags then 30 else 0)
    + (if Flag.UID_NOT_FOUND ∈ flags then 25 else 0)
    + (if Flag.AZURE_DI_VALIDATION_FAILED ∈ flags then 20 else 0)
    + (if ocrConfidence < 50 then (50 - ocrConfidence) * (2/10) else 0)
  if score ≤ 100 then score else 100

/-- `AadhaarVerificationPipeline.verify_document`, as a function of the
image path, the clock reading (`datetime.now()`), the OCR result, the Azure
configuration and inputs, and the prior pipeline state. Returns the
verification record and the updated state. -/
def verify_document (imagePath : List Char) (now : Nat) (ocr : OcrExtraction)
    (useAzure : Bool) (az : AzureEnv) (st : PipelineState) :
    VerificationRecord × PipelineState :=
  let base : VerificationRecord :=
    { imagePath := imagePath, timestamp := now, ocrExtraction := some ocr,
      uidValidation := none, azureDiValidation := none,
      azureOpenaiVerification := none, isFraudulent := false, fraudFlags := [],
      overallScore := 0, recommendation := Recommendation.ACCEPT }
  if ocr.success = false then
    ({ base with
        recommendation := Recommendation.REJECT,
        fraudFlags := [Flag.OCR_EXTRACTION_FAILED] }, st)
  else
    let u := uidStage ocr.uidNumber st.processedUids
    let flags := u.2.1 ++ azureFlags useAzure az
    let fraud := u.2.2.1 || azureFraud useAzure az
    let aov := if truthy ocr.uidNumber && useAzure && az.hasOpenai
               then some az.openaiSuccess else none
    let score := calculateFraudScore flags ocr.confidence
    let recom := if fraud || score > 50 then Recommendation.REJECT
                 else if score > 30 then Recommendation.REVIEW
                 else Recommendation.ACCEPT
    let alerts := if fraud || score > 50
                  then st.fraudAlerts ++ [⟨imagePath, ocr.uidNumber, flags, score⟩]
                  else st.fraudAlerts
    ({ base with
        uidValidation := u.1,
        azureDiValidation := azureRecorded useAzure az,
        azureOpenaiVerification := aov,
        isFraudulent := fraud, fraudFlags := flags,
        overallScore := score, recommendation := recom },
     { processedUids := u.2.2.2, fraudAlerts := alerts })

/-- A failed OCR-extraction result (the `load_image` failure dictionary of
the extractor). -/
def ocrFailEx : OcrExtraction :=
  { success := false, uidNumber := none, confidence := 0,
    error := some ("Failed to load image".toList) }

/-- No Azure clients configured. -/
def azNone : AzureEnv := ⟨false, false, false, false, false⟩

theorem azureFlags_cases (useAzure : Bool) (az : AzureEnv) (f : Flag)
    (hf : f ∈ azureFlags useAzure az) :
    f = Flag.AZURE_DI_FAILED ∨ f = Flag.AZURE_DI_VALIDATION_FAILED := by
  unfold azureFlags at hf
  split at hf
  · split at hf
    · simp at hf; exact Or.inl hf
    · split at hf
      · simp at hf; exact Or.inr hf
      · simp at hf
  · simp at hf

theorem dup_not_mem_azureFlags (useAzure : Bool) (az : AzureEnv) :
    Flag.DUPLICATE_UID ∉ azureFlags useAzure az := by
  intro h
  rcases azureFlags_cases useAzure az _ h with h' | h' <;> exact absurd h' (by decide)

end Verify

/-- C2 counterexample: the uid `"000000000000"` fails the pipeline checksum,
yet one verification inserts it into the batch registry, and a second
document with the same invalid uid is flagged `DUPLICATE_UID` — so the
registry is consulted and updated for checksum-invalid identifiers,
contradicting the claim. -/
theorem claim2_counterexample :
    Pipeline.pipeIsValid ("000000000000".toList) = false ∧
    (Verify.verify_document ("a.jpg".toList) 0
        ⟨true, some ("000000000000".toList), 100, none⟩ false Verify.azNone
        ⟨[], []⟩).2.processedUids = [("000000000000".toList)] ∧
    Verify.Flag.DUPLICATE_UID ∈
      (Verify.verify_document ("b.jpg".toList) 0
        ⟨true, some ("000000000000".toList), 100, none⟩ false Verify.azNone
        ⟨[("000000000000".toList)], []⟩).1.fraudFlags := by
  refine ⟨by decide, by decide, by decide⟩

/-- C2 amended: during verification of a successfully OCR-ed document with a
truthy extracted identifier, the batch registry is consulted and updated for
every such identifier regardless of checksum validity: `DUPLICATE_UID` is
flagged exactly when the identifier (valid or not) was already present in
the registry, and otherwise the identifier is inserted. -/
theorem claim2_registry_updated_regardless (imagePath : List Char) (now : Nat)
    (ocr : Verify.OcrExtraction) (useAzure : Bool) (az : Verify.AzureEnv)
    (st : Verify.PipelineState) (u : List Char)
    (hs : ocr.success = true) (hu : ocr.uidNumber = some u) (hne : u ≠ []) :
    ((Verify.Flag.DUPLICATE_UID ∈
        (Verify.verify_document imagePath now ocr useAzure az st).1.fraudFlags) ↔
      Verify.uidMem u st.processedUids = true) ∧
    (Verify.verify_document imagePath now ocr useAzure az st).2.processedUids =
      (if Verify.uidMem u st.processedUids then st.processedUids
       else st.processedUids ++ [u]) := by
  have hie : u.isEmpty = false := by
    cases u with
    | nil => exact absurd rfl hne
    | cons a t => rfl
  by_cases hm : Verify.uidMem u st.processedUids = true
  · simp [Verify.verify_document, hs, Verify.uidStage, hu, hie, hm,
      Verify.dup_not_mem_azureFlags useAzure az]
  · have hm' : Verify.uidMem u st.processedUids = false := by
      revert hm; cases Verify.uidMem u st.processedUids <;> simp
    simp only [Verify.verify_document, hs, Verify.uidStage, hu, hie, hm']
    constructor
    · simp [hm', Verify.dup_not_mem_azureFlags useAzure az]
    · simp [hm']

/-- Witness for C2 amended: concrete instantiation with a truthy uid and a
prior registry already containing it. -/
theorem claim2_registry_updated_regardless_witness :
    ((Verify.Flag.DUPLICATE_UID ∈
        (Verify.verify_document ("b.jpg".toList) 0
          ⟨true, some ("000000000000".toList), 100, none⟩ false Verify.azNone
          ⟨[("000000000000".toList)], []⟩).1.fraudFlags) ↔
      Verify.uidMem ("000000000000".toList) [("000000000000".toList)] = true) ∧
    (Verify.verify_document ("b.jpg".toList) 0
        ⟨true, some ("000000000000".toList), 100, none⟩ false Verify.azNone
        ⟨[("000000000000".toList)], []⟩).2.processedUids =
      (if Verify.uidMem ("000000000000".toList) [("000000000000".toList)]
       then [("000000000000".toList)]
       else [("000000000000".toList)] ++ [("000000000000".toList)]) :=
  claim2_registry_updated_regardless ("b.jpg".toList) 0
    ⟨true, some ("000000000000".toList), 100, none⟩ false Verify.azNone
    ⟨[("000000000000".toList)], []⟩ ("000000000000".toList) rfl rfl (by decide)

/-- The fraud-score formula as the specification words it: sum of the flag
points and the low-confidence penalty, clamped to the interval [0,100]. -/
def specFraudScore (flags : List Verify.Flag) (confidencePercent : ℚ) : ℚ :=
  max 0 (min ((if Verify.Flag.INVALID_CHECKSUM ∈ flags then 40 else 0)
    + (if Verify.Flag.DUPLICATE_UID ∈ flags then 30 else 0)
    + (if Verify.Flag.UID_NOT_FOUND ∈ flags then 25 else 0)
    + (if Verify.Flag.AZURE_DI_VALIDATION_FAILED ∈ flags then 20 else 0)
    + (if confidencePercent < 50 then (50 - confidencePercent) * (2/10) else 0)) 100)

theorem flagPoints_nonneg (flags : List Verify.Flag) (conf : ℚ) :
    0 ≤ (if Verify.Flag.INVALID_CHECKSUM ∈ flags then (40:ℚ) else 0)
      + (if Verify.Flag.DUPLICATE_UID ∈ flags then 30 else 0)
      + (if Verify.Flag.UID_NOT_FOUND ∈ flags then 25 else 0)
      + (if Verify.Flag.AZURE_DI_VALIDATION_FAILED ∈ flags then 20 else 0)
      + (if conf < 50 then (50 - conf) * (2/10) else 0) := by
  have hpen : 0 ≤ (if conf < 50 then (50 - conf) * (2/10) else (0:ℚ)) := by
    split
    · apply mul_nonneg <;> [linarith; norm_num]
    · exact le_refl 0
  have h1 : 0 ≤ (if Verify.Flag.INVALID_CHECKSUM ∈ flags then (40:ℚ) else 0) := by
    split <;> norm_num
  have h2 : 0 ≤ (if Verify.Flag.DUPLICATE_UID ∈ flags then (30:ℚ) else 0) := by
    split <;> norm_num
  have h3 : 0 ≤ (if Verify.Flag.UID_NOT_FOUND ∈ flags then (25:ℚ) else 0) := by
    split <;> norm_num
  have h4 : 0 ≤ (if Verify.Flag.AZURE_DI_VALIDATION_FAILED ∈ flags then (20:ℚ) else 0) := by
    split <;> norm_num
  linarith

theorem clampEqSpec (s : ℚ) (hnn : 0 ≤ s) :
    (if s ≤ 100 then s else 100) = max 0 (min s 100) := by
  by_cases h : s ≤ 100
  · rw [if_pos h, min_eq_left h, max_eq_right hnn]
  · rw [if_neg h, min_eq_right (by linarith), max_eq_right (by norm_num)]

theorem clampBounds (s : ℚ) (hnn : 0 ≤ s) :
    0 ≤ (if s ≤ 100 then s else 100) ∧ (if s ≤ 100 then s else 100) ≤ 100 := by
  by_cases h : s ≤ 100
  · rw [if_pos h]; exact ⟨hnn, h⟩
  · rw [if_neg h]; norm_num

theorem clampMono (a b : ℚ) (hab : a ≤ b) :
    (if a ≤ 100 then a else 100) ≤ (if b ≤ 100 then b else 100) := by
  by_cases ha : a ≤ 100 <;> by_cases hb : b ≤ 100 <;>
    simp [ha, hb] <;> linarith

/-- C4 counterexample: a record produced by the OCR-extraction-failure
short-circuit has fraud score 0, while the claimed formula applied to its
flags and its (zero) confidence yields 10 — so not every verification
record's score equals the formula. -/
theorem claim4_counterexample :
    (Verify.verify_document ("a.jpg".toList) 0 Verify.ocrFailEx false
        Verify.azNone ⟨[], []⟩).1.overallScore = 0 ∧
    (Verify.verify_document ("a.jpg".toList) 0 Verify.ocrFailEx false
        Verify.azNone ⟨[], []⟩).1.fraudFlags = [Verify.Flag.OCR_EXTRACTION_FAILED] ∧
    Verify.calculateFraudScore [Verify.Flag.OCR_EXTRACTION_FAILED]
        Verify.ocrFailEx.confidence = 10 := by
  refine ⟨rfl, rfl, ?_⟩
  have m1 : Verify.Flag.INVALID_CHECKSUM ∉ [Verify.Flag.OCR_EXTRACTION_FAILED] := by decide
  have m2 : Verify.Flag.DUPLICATE_UID ∉ [Verify.Flag.OCR_EXTRACTION_FAILED] := by decide
  have m3 : Verify.Flag.UID_NOT_FOUND ∉ [Verify.Flag.OCR_EXTRACTION_FAILED] := by decide
  have m4 : Verify.Flag.AZURE_DI_VALIDATION_FAILED ∉ [Verify.Flag.OCR_EXTRACTION_FAILED] := by
    decide
  simp only [Verify.calculateFraudScore, Verify.ocrFailEx]
  rw [if_neg m1, if_neg m2, if_neg m3, if_neg m4,
      if_pos (by norm_num : (0:ℚ) < 50)]
  norm_num

/-- C4 amended: for every record produced on the successful-OCR path, the
fraud score equals the spec formula — sum of 40/30/25/20 flag points plus
the low-confidence penalty, clamped to [0,100] — and the scoring function is
bounded in [0,100] and never decreased by adding a fraud flag. (Records from
the OCR-extraction-failure short-circuit keep score 0 and skip scoring.) -/
theorem claim4_fraud_score_formula (imagePath : List Char) (now : Nat)
    (ocr : Verify.OcrExtraction) (useAzure : Bool) (az : Verify.AzureEnv)
    (st : Verify.PipelineState) (hs : ocr.success = true) :
    (Verify.verify_document imagePath now ocr useAzure az st).1.overallScore =
      Verify.calculateFraudScore
        (Verify.verify_document imagePath now ocr useAzure az st).1.fraudFlags
        ocr.confidence ∧
    (∀ (flags : List Verify.Flag) (conf : ℚ),
      Verify.calculateFraudScore flags conf = specFraudScore flags conf) ∧
    (∀ (flags : List Verify.Flag) (conf : ℚ),
      0 ≤ Verify.calculateFraudScore flags conf ∧
      Verify.calculateFraudScore flags conf ≤ 100) ∧
    (∀ (flags : List Verify.Flag) (conf : ℚ) (f : Verify.Flag),
      Verify.calculateFraudScore flags conf ≤
        Verify.calculateFraudScore (f :: flags) conf) := by
  refine ⟨?_, ?_, ?_, ?_⟩
  · simp [Verify.verify_document, hs]
  · intro flags conf
    unfold Verify.calculateFraudScore specFraudScore
    exact clampEqSpec _ (flagPoints_nonneg flags conf)
  · intro flags conf
    unfold Verify.calculateFraudScore
    exact clampBounds _ (flagPoints_nonneg flags conf)
  · intro flags conf f
    have hmono : ∀ (g : Verify.Flag) (c : ℚ), 0 ≤ c →
        (if g ∈ flags then c else 0) ≤ (if g ∈ f :: flags then c else 0) := by
      intro g c hc
      by_cases h : g ∈ flags
      · simp [h, List.mem_cons_of_mem f h]
      · simp only [h, if_false]
        split
        · exact hc
        · exact le_refl 0
    have h1 := hmono Verify.Flag.INVALID_CHECKSUM 40 (by norm_num)
    have h2 := hmono Verify.Flag.DUPLICATE_UID 30 (by norm_num)
    have h3 := hmono Verify.Flag.UID_NOT_FOUND 25 (by norm_num)
    have h4 := hmono Verify.Flag.AZURE_DI_VALIDATION_FAILED 20 (by norm_num)
    unfold Verify.calculateFraudScore
    exact clampMono _ _ (by linarith)

/-- Witness for C4 amended: concrete instantiation at a successfully OCR-ed
document with an invalid-checksum identifier. -/
theorem claim4_fraud_score_formula_witness :
    (Verify.verify_document ("a.jpg".toList) 0
        ⟨true, some ("000000000000".toList), 100, none⟩ false Verify.azNone
        ⟨[], []⟩).1.overallScore =
      Verify.calculateFraudScore
        (Verify.verify_document ("a.jpg".toList) 0
          ⟨true, some ("000000000000".toList), 100, none⟩ false Verify.azNone
          ⟨[], []⟩).1.fraudFlags 100 ∧
    (∀ (flags : List Verify.Flag) (conf : ℚ),
      Verify.calculateFraudScore flags conf = specFraudScore flags conf) ∧
    (∀ (flags : List Verify.Flag) (conf : ℚ),
      0 ≤ Verify.calculateFraudScore flags conf ∧
      Verify.calculateFraudScore flags conf ≤ 100) ∧
    (∀ (flags : List Verify.Flag) (conf : ℚ) (f : Verify.Flag),
      Verify.calculateFraudScore flags conf ≤
        Verify.calculateFraudScore (f :: flags) conf) :=
  claim4_fraud_score_formula ("a.jpg".toList) 0
    ⟨true, some ("000000000000".toList), 100, none⟩ false Verify.azNone
    ⟨[], []⟩ rfl

theorem append_singleton_ne (l : List Verify.FraudAlert) (x : Verify.FraudAlert) :
    l ≠ l ++ [x] := by
  intro h
  have := congrArg List.length h
  simp at this

/-- C5 counterexample: a record produced by the OCR-extraction-failure
short-circuit carries the REJECT recommendation, yet the batch's fraud-alert
list is left unchanged — so not every REJECT-tier record is appended to the
alert list. -/
theorem claim5_counterexample :
    (Verify.verify_document ("a.jpg".toList) 0 Verify.ocrFailEx false
        Verify.azNone ⟨[], []⟩).1.recommendation = Verify.Recommendation.REJECT ∧
    (Verify.verify_document ("a.jpg".toList) 0 Verify.ocrFailEx false
        Verify.azNone ⟨[], []⟩).2.fraudAlerts = [] :=
  ⟨rfl, rfl⟩

/-- C5 amended: on the successful-OCR path, a record is REJECT exactly when
it is appended (with its identifier, flags and score) to the batch's
fraud-alert list; REJECT records produced by the OCR-extraction-failure
short-circuit are returned without touching the alert list. -/
theorem claim5_reject_alerts (imagePath : List Char) (now : Nat)
    (ocr : Verify.OcrExtraction) (useAzure : Bool) (az : Verify.AzureEnv)
    (st : Verify.PipelineState) (hs : ocr.success = true) :
    ((Verify.verify_document imagePath now ocr useAzure az st).1.recommendation =
        Verify.Recommendation.REJECT →
      (Verify.verify_document imagePath now ocr useAzure az st).2.fraudAlerts =
        st.fraudAlerts ++
          [⟨imagePath, ocr.uidNumber,
            (Verify.verify_document imagePath now ocr useAzure az st).1.fraudFlags,
            (Verify.verify_document imagePath now ocr useAzure az st).1.overallScore⟩]) ∧
    ((Verify.verify_document imagePath now ocr useAzure az st).1.recommendation ≠
        Verify.Recommendation.REJECT →
      (Verify.verify_document imagePath now ocr useAzure az st).2.fraudAlerts =
        st.fraudAlerts) := by
  have hsf : (ocr.success = false) = False := by simp [hs]
  simp only [Verify.verify_document, hsf, if_false]
  constructor
  · intro hrec
    split
    · rfl
    · rename_i hcond
      revert hrec
      split
      · rename_i hcond2
        intro _
        exact absurd hcond2 hcond
      · intro hx
        revert hx
        split <;> intro hx <;> exact Verify.Recommendation.noConfusion hx
  · intro hrec
    split
    · rename_i hcond
      exact absurd (by simp [hcond]) hrec
    · rfl

/-- Witness for C5 amended: concrete instantiation at a successfully OCR-ed
document with an invalid-checksum identifier (which is REJECTed). -/
theorem claim5_reject_alerts_witness :
    ((Verify.verify_document ("a.jpg".toList) 0
        ⟨true, some ("000000000000".toList), 100, none⟩ false Verify.azNone
        ⟨[], []⟩).1.recommendation = Verify.Recommendation.REJECT →
      (Verify.verify_document ("a.jpg".toList) 0
        ⟨true, some ("000000000000".toList), 100, none⟩ false Verify.azNone
        ⟨[], []⟩).2.fraudAlerts =
        [] ++
          [⟨"a.jpg".toList, some ("000000000000".toList),
            (Verify.verify_document ("a.jpg".toList) 0
              ⟨true, some ("000000000000".toList), 100, none⟩ false Verify.azNone
              ⟨[], []⟩).1.fraudFlags,
            (Verify.verify_document ("a.jpg".toList) 0
              ⟨true, some ("000000000000".toList), 100, none⟩ false Verify.azNone
              ⟨[], []⟩).1.overallScore⟩]) ∧
    ((Verify.verify_document ("a.jpg".toList) 0
        ⟨true, some ("000000000000".toList), 100, none⟩ false Verify.azNone
        ⟨[], []⟩).1.recommendation ≠ Verify.Recommendation.REJECT →
      (Verify.verify_document ("a.jpg".toList) 0
        ⟨true, some ("000000000000".toList), 100, none⟩ false Verify.azNone
        ⟨[], []⟩).2.fraudAlerts = []) :=
  claim5_reject_alerts ("a.jpg".toList) 0
    ⟨true, some ("000000000000".toList), 100, none⟩ false Verify.azNone
    ⟨[], []⟩ rfl

/-- C6 counterexample: two runs of `verify_document` with the same image,
OCR result, Azure inputs, and prior registry state, but at clock readings 0
and 1, produce records that differ (in the timestamp field) — so not every
record field is reproduced. -/
theorem claim6_counterexample :
    (Verify.verify_document ("a.jpg".toList) 0 Verify.ocrFailEx false
        Verify.azNone ⟨[], []⟩).1 ≠
    (Verify.verify_document ("a.jpg".toList) 1 Verify.ocrFailEx false
        Verify.azNone ⟨[], []⟩).1 := by
  intro h
  have ht := congrArg Verify.VerificationRecord.timestamp h
  simp [Verify.verify_document, Verify.ocrFailEx] at ht

/-- C6 amended: `verify_document` is deterministic given identical inputs
and identical prior registry state — two runs produce the same updated state
and records agreeing on every field except the timestamp, which is the
clock reading of the respective run (with equal clock readings the records
are identical). -/
theorem claim6_deterministic_modulo_timestamp (imagePath : List Char)
    (t1 t2 : Nat) (ocr : Verify.OcrExtraction) (useAzure : Bool)
    (az : Verify.AzureEnv) (st : Verify.PipelineState) :
    (Verify.verify_document imagePath t1 ocr useAzure az st).2 =
      (Verify.verify_document imagePath t2 ocr useAzure az st).2 ∧
    (Verify.verify_document imagePath t1 ocr useAzure az st).1 =
      { (Verify.verify_document imagePath t2 ocr useAzure az st).1 with
          timestamp := t1 } := by
  by_cases hs : ocr.success = false
  · simp [Verify.verify_document, hs]
  · have hsf : (ocr.success = false) = False := by simp [hs]
    simp [Verify.verify_document, hsf]

namespace MultiOcr

/-- One `(engine, text, conf)` entry of the `results` list in
`extract_text_multi_ocr`. -/
structure OcrResult where
  engine : List Char
  text : List Char
  conf : ℚ
deriving DecidableEq, Repr

/-- The `(confidence, textLength)` selection key,
`lambda x: (x[2], len(x[1]))`. -/
def key (r : OcrResult) : ℚ × Nat := (r.conf, r.text.length)

/-- Strict lexicographic comparison of selection keys: this is the
replacement test of Python `max` under the key, and also the strategy-loop
test `conf > best_conf or (conf == best_conf and len(text) > len(best_text))`
of `MultiOcrExtractor.extract_data_from_image`. -/
def keyLt (a b : ℚ × Nat) : Bool := a.1 < b.1 || (a.1 == b.1 && a.2 < b.2)

/-- Python `max` over the candidates with the `(confidence, textLength)`
key: left fold that replaces the current best only when a later candidate's
key is strictly greater (the first maximal candidate wins). -/
def pickBest : OcrResult → List OcrResult → OcrResult
  | best, [] => best
  | best, r :: rest => pickBest (if keyLt (key best) (key r) then r else best) rest

/-- The engine-enable flags held by a constructed `MultiOcrExtractor`. -/
structure EngineFlags where
  useTesseract : Bool
  useEasyocr : Bool
  usePaddleocr : Bool
deriving DecidableEq, Repr

/-- The `(text, conf)` pair one engine returns for one preprocessed image. -/
structure EngineOut where
  text : List Char
  conf : ℚ
deriving DecidableEq, Repr

/-- The per-engine outputs available for one preprocessed image. -/
structure EngineOuts where
  tesseract : EngineOut
  easyocr : EngineOut
  paddleocr : EngineOut
deriving DecidableEq, Repr

/-- The `results` list assembled by `extract_text_multi_ocr`: every enabled
engine whose text is truthy contributes `(engine_name, text, conf)`, in the
fixed Tesseract, EasyOCR, PaddleOCR order. -/
def gatherResults (f : EngineFlags) (o : EngineOuts) : List OcrResult :=
  (if f.useTesseract && !o.tesseract.text.isEmpty
   then [⟨"Tesseract".toList, o.tesseract.text, o.tesseract.conf⟩] else [])
  ++ (if f.useEasyocr && !o.easyocr.text.isEmpty
   then [⟨"EasyOCR".toList, o.easyocr.text, o.easyocr.conf⟩] else [])
  ++ (if f.usePaddleocr && !o.paddleocr.text.isEmpty
   then [⟨"PaddleOCR".toList, o.paddleocr.text, o.paddleocr.conf⟩] else [])

/-- `MultiOcrExtractor.extract_text_multi_ocr`: gather the per-engine
results; with no usable result return the structured empty `("", 0.0,
"None")`, otherwise the candidate maximizing `(confidence, textLength)`. -/
def extract_text_multi_ocr (f : EngineFlags) (o : EngineOuts) :
    List Char × ℚ × List Char :=
  match gatherResults f o with
  | [] => ([], 0, "None".toList)
  | r :: rest =>
    let b := pickBest r rest
    (b.text, b.conf, b.engine)

/-- The constructor arguments and engine-availability environment of
`MultiOcrExtractor.__init__`: the three `use_*` arguments, whether each
optional engine's import succeeded, and whether its initialization call
succeeded. -/
structure MultiOcrConfig where
  useEasyocr : Bool
  usePaddleocr : Bool
  useTesseract : Bool
  easyocrAvailable : Bool
  paddleocrAvailable : Bool
  easyocrInitOk : Bool
  paddleocrInitOk : Bool
deriving DecidableEq, Repr

/-- The engine flags `__init__` ends with: each optional engine is enabled
only when requested, importable, and successfully initialized
(initialization exceptions are caught and merely disable the engine). -/
def enabledFlags (c : MultiOcrConfig) : EngineFlags :=
  { useTesseract := c.useTesseract
  , useEasyocr := c.useEasyocr && c.easyocrAvailable && c.easyocrInitOk
  , usePaddleocr := c.usePaddleocr && c.paddleocrAvailable && c.paddleocrInitOk }

/-- `MultiOcrExtractor.__init__` in `Except`, recording that no code path of
the constructor raises: every configuration — including one in which every
engine ends up disabled — constructs successfully. -/
def multiOcrInit (c : MultiOcrConfig) : Except (List Char) EngineFlags :=
  .ok (enabledFlags c)

/-- Non-strict lexicographic order on `(confidence, textLength)` keys. -/
def keyLe (a b : ℚ × Nat) : Prop := a.1 < b.1 ∨ (a.1 = b.1 ∧ a.2 ≤ b.2)

theorem keyLe_refl (a : ℚ × Nat) : keyLe a a := Or.inr ⟨rfl, le_refl _⟩

theorem keyLe_trans (a b c : ℚ × Nat) (hab : keyLe a b) (hbc : keyLe b c) :
    keyLe a c := by
  rcases hab with h1 | ⟨h1, h1'⟩ <;> rcases hbc with h2 | ⟨h2, h2'⟩
  · exact Or.inl (lt_trans h1 h2)
  · exact Or.inl (h2 ▸ h1)
  · exact Or.inl (h1 ▸ h2)
  · exact Or.inr ⟨h1.trans h2, le_trans h1' h2'⟩

theorem keyLe_of_keyLt (a b : ℚ × Nat) (h : keyLt a b = true) : keyLe a b := by
  unfold keyLt at h
  simp only [Bool.or_eq_true, Bool.and_eq_true, decide_eq_true_eq, beq_iff_eq] at h
  rcases h with h | ⟨h, h'⟩
  · exact Or.inl h
  · exact Or.inr ⟨h, le_of_lt h'⟩

theorem keyLe_of_keyLt_false (a b : ℚ × Nat) (h : keyLt a b = false) :
    keyLe b a := by
  unfold keyLt at h
  simp only [Bool.or_eq_false_iff, Bool.and_eq_false_iff, decide_eq_false_iff_not,
    beq_iff_eq, beq_eq_false_iff_ne, ne_eq] at h
  obtain ⟨h1, h2⟩ := h
  rcases lt_or_eq_of_le (le_of_not_lt h1) with hlt | heq
  · exact Or.inl hlt
  · rcases h2 with h2 | h2
    · exact absurd heq.symm h2
    · exact Or.inr ⟨heq, le_of_not_lt h2⟩

theorem pickBest_spec (rs : List OcrResult) (best : OcrResult) :
    (pickBest best rs = best ∨ pickBest best rs ∈ rs) ∧
    keyLe (key best) (key (pickBest best rs)) ∧
    ∀ x ∈ rs, keyLe (key x) (key (pickBest best rs)) := by
  induction rs generalizing best with
  | nil => exact ⟨Or.inl rfl, keyLe_refl _, by simp⟩
  | cons r rest ih =>
    simp only [pickBest]
    by_cases hk : keyLt (key best) (key r) = true
    · rw [if_pos hk]
      obtain ⟨hmem, hle, hall⟩ := ih r
      refine ⟨?_, keyLe_trans _ _ _ (keyLe_of_keyLt _ _ hk) hle, ?_⟩
      · rcases hmem with h | h
        · exact Or.inr (by rw [h]; exact List.mem_cons_self r rest)
        · exact Or.inr (List.mem_cons_of_mem r h)
      · intro x hx
        rcases List.mem_cons.mp hx with h | h
        · exact h ▸ hle
        · exact hall x h
    · rw [if_neg hk]
      have hk' : keyLt (key best) (key r) = false := by
        revert hk; cases keyLt (key best) (key r) <;> simp
      obtain ⟨hmem, hle, hall⟩ := ih best
      refine ⟨?_, hle, ?_⟩
      · rcases hmem with h | h
        · exact Or.inl h
        · exact Or.inr (List.mem_cons_of_mem r h)
      · intro x hx
        rcases List.mem_cons.mp hx with h | h
        · exact h ▸ keyLe_trans _ _ _ (keyLe_of_keyLt_false _ _ hk') hle
        · exact hall x h

end MultiOcr

namespace SingleOcr

/-- One step of the strategy loop in `OcrExtractor.extract_data_from_image`:
`if len(text) > len(best_text) or conf > best_conf: best_text, best_conf =
text, conf`. -/
def bestStep (best cand : List Char × ℚ) : List Char × ℚ :=
  if best.1.length < cand.1.length || best.2 < cand.2 then cand else best

/-- The strategy loop over the per-strategy `(text, conf)` results, starting
from `best_text, best_conf = "", 0.0`. -/
def selectBest (cands : List (List Char × ℚ)) : List Char × ℚ :=
  cands.foldl bestStep ([], 0)

end SingleOcr

/-- C3 counterexample: the strategy-selection loop of
`OcrExtractor.extract_data_from_image` (`len(text) > len(best_text) or conf
> best_conf`) is not the lexicographic `(confidence, textLength)` rule:
given candidates with confidences 0.9 and 0.5 and text lengths 50 and 80 it
selects the lower-confidence length-80 candidate, although a candidate with
strictly higher confidence is present. -/
theorem claim3_counterexample :
    SingleOcr.selectBest
        [(List.replicate 50 'a', 9/10), (List.replicate 80 'b', 5/10)] =
      (List.replicate 80 'b', 5/10) ∧
    (5/10 : ℚ) < 9/10 := by
  constructor
  · show SingleOcr.bestStep
      (SingleOcr.bestStep ([], 0) (List.replicate 50 'a', 9/10))
      (List.replicate 80 'b', 5/10) = (List.replicate 80 'b', 5/10)
    unfold SingleOcr.bestStep
    norm_num
  · norm_num

/-- C3 amended: the multi-engine extractor's selection — Python `max` with
key `(confidence, textLength)` over the engine results, and the identical
comparison in its strategy loop — picks a candidate that is lexicographically
maximal: no candidate has strictly higher confidence than the chosen one,
and no equal-confidence candidate has longer text; with two candidates of
confidence 0.9 and lengths 50 and 80, the length-80 candidate is chosen.
(The single-engine `OcrExtractor` loop does not follow this rule — see the
counterexample.) -/
theorem claim3_lexicographic_selection :
    (∀ (best : MultiOcr.OcrResult) (rs : List MultiOcr.OcrResult)
        (x : MultiOcr.OcrResult), x ∈ best :: rs →
        MultiOcr.keyLe (MultiOcr.key x)
          (MultiOcr.key (MultiOcr.pickBest best rs))) ∧
    (∀ (best : MultiOcr.OcrResult) (rs : List MultiOcr.OcrResult),
        MultiOcr.pickBest best rs ∈ best :: rs) ∧
    MultiOcr.extract_text_multi_ocr ⟨true, true, true⟩
        ⟨⟨List.replicate 50 'a', 9/10⟩, ⟨List.replicate 80 'b', 9/10⟩, ⟨[], 0⟩⟩ =
      (List.replicate 80 'b', 9/10, "EasyOCR".toList) := by
  refine ⟨?_, ?_, ?_⟩
  · intro best rs x hx
    obtain ⟨_, hle, hall⟩ := MultiOcr.pickBest_spec rs best
    rcases List.mem_cons.mp hx with h | h
    · exact h ▸ hle
    · exact hall x h
  · intro best rs
    obtain ⟨hmem, _, _⟩ := MultiOcr.pickBest_spec rs best
    rcases hmem with h | h
    · exact (by rw [h]; exact List.mem_cons_self best rs)
    · exact List.mem_cons_of_mem best h
  · have hg : MultiOcr.gatherResults ⟨true, true, true⟩
        ⟨⟨List.replicate 50 'a', 9/10⟩, ⟨List.replicate 80 'b', 9/10⟩, ⟨[], 0⟩⟩ =
        [⟨"Tesseract".toList, List.replicate 50 'a', 9/10⟩,
         ⟨"EasyOCR".toList, List.replicate 80 'b', 9/10⟩] := by
      simp [MultiOcr.gatherResults]
    have hkt : MultiOcr.keyLt
        (MultiOcr.key ⟨"Tesseract".toList, List.replicate 50 'a', 9/10⟩)
        (MultiOcr.key ⟨"EasyOCR".toList, List.replicate 80 'b', 9/10⟩) = true := by
      norm_num [MultiOcr.keyLt, MultiOcr.key]
    have hp : MultiOcr.pickBest ⟨"Tesseract".toList, List.replicate 50 'a', 9/10⟩
        [⟨"EasyOCR".toList, List.replicate 80 'b', 9/10⟩] =
        ⟨"EasyOCR".toList, List.replicate 80 'b', 9/10⟩ := by
      simp only [MultiOcr.pickBest]
      rw [if_pos hkt]
    unfold MultiOcr.extract_text_multi_ocr
    rw [hg]
    dsimp only
    rw [hp]

/-- Witness for C3 amended: the maximality facts applied at the concrete
two-candidate configuration with equal confidences. -/
theorem claim3_lexicographic_selection_witness :
    MultiOcr.keyLe
      (MultiOcr.key ⟨"Tesseract".toList, List.replicate 50 'a', 9/10⟩)
      (MultiOcr.key (MultiOcr.pickBest
        ⟨"Tesseract".toList, List.replicate 50 'a', 9/10⟩
        [⟨"EasyOCR".toList, List.replicate 80 'b', 9/10⟩])) ∧
    MultiOcr.pickBest ⟨"Tesseract".toList, List.replicate 50 'a', 9/10⟩
        [⟨"EasyOCR".toList, List.replicate 80 'b', 9/10⟩] ∈
      (⟨"Tesseract".toList, List.replicate 50 'a', 9/10⟩ : MultiOcr.OcrResult) ::
        [⟨"EasyOCR".toList, List.replicate 80 'b', 9/10⟩] :=
  ⟨claim3_lexicographic_selection.1
      ⟨"Tesseract".toList, List.replicate 50 'a', 9/10⟩
      [⟨"EasyOCR".toList, List.replicate 80 'b', 9/10⟩]
      ⟨"Tesseract".toList, List.replicate 50 'a', 9/10⟩
      (List.mem_cons_self _ _),
   claim3_lexicographic_selection.2.1
      ⟨"Tesseract".toList, List.replicate 50 'a', 9/10⟩
      [⟨"EasyOCR".toList, List.replicate 80 'b', 9/10⟩]⟩

/-- C9 counterexample: constructing the multi-OCR extractor with every
engine disabled succeeds — `__init__` raises nothing and returns the
all-disabled flag set (no `NoEngineAvailable` error exists in the code), and
a subsequent extraction call returns the structured empty result `("", 0.0,
"None")` instead of raising — contradicting the claim that construction
fails immediately. -/
theorem claim9_counterexample :
    MultiOcr.multiOcrInit ⟨false, false, false, false, false, false, false⟩ =
      .ok ⟨false, false, false⟩ ∧
    MultiOcr.extract_text_multi_ocr ⟨false, false, false⟩
        ⟨⟨"x".toList, 1⟩, ⟨"y".toList, 1⟩, ⟨"z".toList, 1⟩⟩ =
      ([], 0, "None".toList) :=
  ⟨rfl, rfl⟩

/-- C9 amended: zero enabled OCR engines is not a construction-time error —
`__init__` always succeeds, and under an all-disabled flag set every
extraction call returns the structured empty candidate `("", 0.0, "None")`
rather than raising. -/
theorem claim9_zero_engines (c : MultiOcr.MultiOcrConfig)
    (h : MultiOcr.enabledFlags c = ⟨false, false, false⟩) :
    MultiOcr.multiOcrInit c = .ok ⟨false, false, false⟩ ∧
    ∀ o : MultiOcr.EngineOuts,
      MultiOcr.extract_text_multi_ocr (MultiOcr.enabledFlags c) o =
        ([], 0, "None".toList) := by
  constructor
  · unfold MultiOcr.multiOcrInit
    rw [h]
  · intro o
    rw [h]
    simp [MultiOcr.extract_text_multi_ocr, MultiOcr.gatherResults]

/-- Witness for C9 amended: the all-disabled configuration. -/
theorem claim9_zero_engines_witness :
    MultiOcr.multiOcrInit ⟨false, false, false, true, true, true, true⟩ =
      .ok ⟨false, false, false⟩ ∧
    MultiOcr.extract_text_multi_ocr
        (MultiOcr.enabledFlags ⟨false, false, false, true, true, true, true⟩)
        ⟨⟨"x".toList, 1⟩, ⟨"y".toList, 1⟩, ⟨"z".toList, 1⟩⟩ =
      ([], 0, "None".toList) :=
  ⟨(claim9_zero_engines ⟨false, false, false, true, true, true, true⟩ rfl).1,
   (claim9_zero_engines ⟨false, false, false, true, true, true, true⟩ rfl).2
     ⟨⟨"x".toList, 1⟩, ⟨"y".toList, 1⟩, ⟨"z".toList, 1⟩⟩⟩
